import Mathlib

/-!
Shallow embedding of `src/main.py` of astrbot_plugin_bilibili_livereminder.

The plugin keeps, inside the `BilibiliLiveMonitor` object, four pieces of
mutable state: `monitor_list` (room configurations), `white_list_groups`
(allow-listed chat destinations), `room_status` (per-room last observed
status) and `pending_notifications` (per-destination outbox).  The monitor
loop body (`monitor_task`, one cycle) and the inbound-event handler
(`on_group_message`) are modelled as pure state transformers below; HTTP
calls (`check_live_status`, `get_anchor_info`) are modelled by passing their
outcomes in as data (`Option` values / oracle functions), and `datetime`
values as integer epoch seconds.  Python dictionaries become association
lists (`dlookup` / `dinsert`), Python `KeyError` on a missing JSON field
becomes `Except.error`.
-/

/-- A Python value used as a group identifier: the config list
`white_list_groups` may contain integers or strings, and dictionary keys
compare ints and strings as distinct. -/
inductive GVal where
  | i : Int → GVal
  | s : String → GVal
deriving DecidableEq, Repr

/-- Python `str(v)` for a group-id value. -/
def GVal.str : GVal → String
  | .i n => toString n
  | .s t => t

/-- Python truthiness test `not group_id` (line 73): `0` and `""` are falsy. -/
def GVal.falsy : GVal → Bool
  | .i n => n = 0
  | .s t => t = ""

instance {ε α : Type} [DecidableEq ε] [DecidableEq α] : DecidableEq (Except ε α) := fun x y =>
  match x, y with
  | Except.ok a, Except.ok b =>
    if h : a = b then isTrue (by rw [h]) else isFalse (fun hc => h (Except.ok.inj hc))
  | Except.error a, Except.error b =>
    if h : a = b then isTrue (by rw [h]) else isFalse (fun hc => h (Except.error.inj hc))
  | Except.ok _, Except.error _ => isFalse (fun hc => Except.noConfusion hc)
  | Except.error _, Except.ok _ => isFalse (fun hc => Except.noConfusion hc)

/-- Lookup in a Python dict modelled as an association list (first match). -/
def dlookup {α β : Type} [DecidableEq α] : List (α × β) → α → Option β
  | [], _ => none
  | (k, v) :: rest, a => if k = a then some v else dlookup rest a

/-- Python dict assignment `d[k] = v`: replace in place, else append. -/
def dinsert {α β : Type} [DecidableEq α] (a : α) (b : β) : List (α × β) → List (α × β)
  | [] => [(a, b)]
  | (k, v) :: rest => if k = a then (a, b) :: rest else (k, v) :: dinsert a b rest

/-- One entry of `monitor_list`.  `anchor_name` is read with
`room_config.get('anchor_name', ...)`, so it may be absent. -/
structure RoomConfig where
  room_id : String
  anchor_name : Option String
deriving DecidableEq, Repr

/-- One entry of `self.room_status` (lines 110-114). -/
structure RoomStatus where
  last_status : Int
  live_start_time : Option Int
  anchor_name : String
deriving DecidableEq, Repr

/-- The JSON `data` object of a status fetch, restricted to the integer
fields the plugin reads (`live_status`, `live_time`).  A missing key raises
`KeyError` in Python, modelled by `getKey` returning `Except.error`. -/
abbrev DataDict := List (String × Int)

/-- A non-`None` return value of `check_live_status` (lines 47-51). -/
structure FetchResult where
  room_id : String
  data : DataDict
  check_time : Int
deriving DecidableEq, Repr

/-- The dictionary returned by `get_anchor_info`. -/
structure AnchorInfo where
  name : String
  title : String
deriving DecidableEq, Repr

/-- `data[k]`: Python dict subscript, raising `KeyError` when absent. -/
def getKey (d : DataDict) (k : String) : Except String Int :=
  match dlookup d k with
  | some v => Except.ok v
  | none => Except.error k

/-- `get_anchor_info` (lines 56-69): the network outcome is passed in as
`api`; on any failure the fallback dictionary
`{'name': f"主播{room_id}", 'title': '未知标题'}` is returned. -/
def get_anchor_info (room_id : String) (api : Option AnchorInfo) : AnchorInfo :=
  match api with
  | some info => info
  | none => { name := s!"主播{room_id}", title := "未知标题" }

/-- The mutable state of the `BilibiliLiveMonitor` object. -/
structure PluginState where
  monitor_list : List RoomConfig
  white_list_groups : List GVal
  room_status : List (String × RoomStatus)
  pending_notifications : List (GVal × List String)
deriving DecidableEq, Repr

/-- `is_group_in_white_list` (lines 71-75). -/
def is_group_in_white_list (white : List GVal) (group_id : GVal) : Bool :=
  if group_id.falsy then false
  else (white.map GVal.str).contains group_id.str

/-- Duration text of the offline notification (lines 142-145):
`divmod(total_seconds, 3600)` then `divmod(remainder, 60)`; Python `divmod`
is floor division, hence `Int.fdiv` / `Int.fmod`. -/
def durationText (now start : Int) : String :=
  let total := now - start
  let hours := Int.fdiv total 3600
  let remainder := Int.fmod total 3600
  let minutes := Int.fdiv remainder 60
  s!"{hours}时{minutes}分"

/-- The message built on a LIVE→OFFLINE transition (lines 137-148). -/
def offlineMessage (actual_name : String) (start_time : Option Int) (now : Int) : String :=
  match start_time with
  | some start => s!"{actual_name}的直播已结束，一共直播了" ++ durationText now start
  | none => s!"{actual_name}的直播已结束"

/-- The message built on an OFFLINE→LIVE transition (lines 133-135): the
title line is appended exactly when the obtained title differs from the
fallback `'未知标题'`. -/
def liveMessage (actual_name room_id title : String) : String :=
  let base := s!"{actual_name}开播了！\n传送门：https://live.bilibili.com/{room_id}"
  if title = "未知标题" then base else base ++ s!"\n标题：{title}"

/-- Lines 153-156: append `msg` to the outbox of every allow-listed group,
creating the (raw-keyed) entry when absent. -/
def addNotifications (groups : List GVal) (msg : String)
    (pending : List (GVal × List String)) : List (GVal × List String) :=
  groups.foldl (fun p gid => dinsert gid ((dlookup p gid).getD [] ++ [msg]) p) pending

/-- Python `room_config['anchor_name'] = actual_name` on the first config
entry with the given room id (the one `next(...)` returned, line 130). -/
def updateFirstName (room_id actual_name : String) : List RoomConfig → List RoomConfig
  | [] => []
  | c :: rest =>
    if c.room_id == room_id then { c with anchor_name := some actual_name } :: rest
    else c :: updateFirstName room_id actual_name rest

/-- Body of the per-result `for` loop of `monitor_task` (lines 92-158) for a
single `result`.  `anchorApi` is the network oracle consumed by
`get_anchor_info`; `now` is `datetime.now()` in epoch seconds.  A `KeyError`
on the `data` dict surfaces as `Except.error` (caught one level up, by the
cycle-wide `try`). -/
def processResult (now : Int) (anchorApi : String → Option AnchorInfo)
    (st : PluginState) (result : Option FetchResult) : Except String PluginState :=
  match result with
  | none => Except.ok st
  | some r => do
    let room_id := r.room_id
    let current_status ← getKey r.data "live_status"
    match st.monitor_list.find? (fun c => c.room_id == room_id) with
    | none => Except.ok st
    | some room_config =>
      let anchor_name := room_config.anchor_name.getD s!"主播{room_id}"
      match dlookup st.room_status room_id with
      | none =>
        let rs0 : RoomStatus :=
          { last_status := current_status, live_start_time := none,
            anchor_name := anchor_name }
        Except.ok { st with room_status := dinsert room_id rs0 st.room_status }
      | some rs =>
        if current_status ≠ rs.last_status then
          if current_status = 1 then do
            let live_time ← getKey r.data "live_time"
            let anchor_info := get_anchor_info room_id (anchorApi room_id)
            let actual_name := anchor_info.name
            let message := liveMessage actual_name room_id anchor_info.title
            let rsLive : RoomStatus :=
              { last_status := current_status, live_start_time := some live_time,
                anchor_name := actual_name }
            Except.ok { st with
              monitor_list := updateFirstName room_id actual_name st.monitor_list,
              room_status := dinsert room_id rsLive st.room_status,
              pending_notifications :=
                addNotifications st.white_list_groups message st.pending_notifications }
          else
            let message := offlineMessage rs.anchor_name rs.live_start_time now
            let rsOff : RoomStatus := { rs with last_status := current_status }
            Except.ok { st with
              room_status := dinsert room_id rsOff st.room_status,
              pending_notifications :=
                addNotifications st.white_list_groups message st.pending_notifications }
        else Except.ok st

/-- One cycle of `monitor_task` (the `for result in results` loop inside the
cycle-wide `try`, lines 82-161): results are processed in order; the first
uncaught exception ends the cycle, keeping the state mutated so far, and the
loop itself continues. -/
def monitorCycle (now : Int) (anchorApi : String → Option AnchorInfo)
    (st : PluginState) : List (Option FetchResult) → PluginState
  | [] => st
  | r :: rest =>
    match processResult now anchorApi st r with
    | Except.ok st' => monitorCycle now anchorApi st' rest
    | Except.error _ => st

/-- Python `str.strip()` (no argument): remove whitespace from both ends.
Defined by structural recursion over the character list. -/
def pyStrip (t : String) : String :=
  String.mk (((t.data.dropWhile Char.isWhitespace).reverse.dropWhile
    Char.isWhitespace).reverse)

/-- Python `str.lower()` restricted to ASCII case mapping. -/
def pyLower (t : String) : String :=
  String.mk (t.data.map Char.toLower)

/-- Python slice `t[n:]` (code points). -/
def pyDrop (n : Nat) (t : String) : String :=
  String.mk (t.data.drop n)

/-- Python `t.startswith(p)`. -/
def pyStartsWith (p t : String) : Bool :=
  p.data.isPrefixOf t.data

/-- Line 180 / 212: `"直播中" if live_status == 1 else "未开播"`. -/
def statusText (ls : Int) : String :=
  if ls = 1 then "直播中" else "未开播"

/-- Duration text of the single-room report (lines 187-191). -/
def durationHMS (now start : Int) : String :=
  let total := now - start
  let hours := Int.fdiv total 3600
  let remainder := Int.fmod total 3600
  let minutes := Int.fdiv remainder 60
  let seconds := Int.fmod remainder 60
  s!"{hours}小时{minutes}分钟{seconds}秒"

/-- Single-room branch of `get_live_info` (lines 167-200).  `checkApi`
models the synchronous `check_live_status` call, `anchorApi` the
`get_anchor_info` call, and `fmtTime` the library `strftime`
(`'%Y-%m-%d %H:%M:%S'`). -/
def get_live_info_single (st : PluginState) (now : Int)
    (checkApi : String → Option FetchResult) (anchorApi : String → Option AnchorInfo)
    (fmtTime : Int → String) (room_id : String) : Except String String :=
  match st.monitor_list.find? (fun c => c.room_id == room_id) with
  | none => Except.ok s!"未找到直播间 {room_id} 的配置"
  | some room_config =>
    match checkApi room_id with
    | none => Except.ok s!"无法获取直播间 {room_id} 的信息"
    | some result => do
      let anchor_name := room_config.anchor_name.getD s!"主播{room_id}"
      let ls ← getKey result.data "live_status"
      let stext := statusText ls
      let info := s!"直播间ID: {room_id}\n主播: {anchor_name}\n状态: {stext}\n"
      let info :=
        if ls = 1 then
          let info :=
            match (dlookup st.room_status room_id).bind (fun rs => rs.live_start_time) with
            | some start =>
              info ++ "开播时间: " ++ fmtTime start ++ "\n"
                ++ "直播时长: " ++ durationHMS now start ++ "\n"
            | none => info
          let anchor_info := get_anchor_info room_id (anchorApi room_id)
          info ++ s!"标题: {anchor_info.title}\n"
        else info
      Except.ok (info ++ "最后检查: " ++ fmtTime result.check_time ++ "\n"
        ++ s!"直播间链接: https://live.bilibili.com/{room_id}")

/-- One line group of the aggregate report (lines 207-222). -/
def aggregateLine (st : PluginState) (now : Int) (i : Nat) (c : RoomConfig) : String :=
  let room_id := c.room_id
  let anchor_name := c.anchor_name.getD s!"主播{room_id}"
  let rsOpt := dlookup st.room_status room_id
  let stext := statusText ((rsOpt.map (fun rs => rs.last_status)).getD 0)
  let line := s!"{i}. {anchor_name} (ID: {room_id}) - {stext}\n"
  let line :=
    match rsOpt with
    | some rs =>
      if rs.last_status = 1 then
        match rs.live_start_time with
        | some start => line ++ "   直播时长: " ++ durationText now start ++ "\n"
        | none => line
      else line
    | none => line
  line ++ s!"   链接: https://live.bilibili.com/{room_id}\n\n"

/-- Aggregate branch of `get_live_info` (lines 202-227). -/
def get_live_info_all (st : PluginState) (now : Int) : String :=
  if st.monitor_list = [] then "当前没有监控任何直播间"
  else
    let n := st.monitor_list.length
    let header := s!"监控中的直播间 ({n}个):\n\n"
    let body := String.join
      ((st.monitor_list.enumFrom 1).map (fun p => aggregateLine st now p.1 p.2))
    let wn := st.white_list_groups.length
    let wnames := String.intercalate ", " (st.white_list_groups.map GVal.str)
    pyStrip (header ++ body ++ s!"\n白名单群组 ({wn}个): {wnames}")

/-- Python `str.isdigit()` restricted to ASCII inputs: non-empty and all
decimal digits. -/
def isDigitStr (t : String) : Bool :=
  !t.data.isEmpty && t.data.all Char.isDigit

/-- An inbound group-message event: its destination id and text payload. -/
structure GEvent where
  group_id : GVal
  message_str : String
deriving DecidableEq, Repr

/-- The command part of `on_group_message` (lines 240-252), applied to the
already normalized (`strip().lower()`) text: the list of replies yielded
before the outbox drain. -/
def commandOut (st : PluginState) (now : Int)
    (checkApi : String → Option FetchResult) (anchorApi : String → Option AnchorInfo)
    (fmtTime : Int → String) (m : String) : Except String (List String) :=
  if m = "liveinfo" then
    Except.ok [get_live_info_all st now]
  else if pyStartsWith "liveinfo " m then
    let room_id := pyStrip (pyDrop 9 m)
    if isDigitStr room_id then do
      let info ← get_live_info_single st now checkApi anchorApi fmtTime room_id
      Except.ok [info]
    else Except.ok ["请输入正确的直播间ID"]
  else Except.ok []

/-- `on_group_message` (lines 229-261): returns the yielded replies in
order together with the state after the handler.  A destination outside the
white list is rejected with no output; the outbox drain (lines 254-261)
delivers `pending_notifications[str(group_id)]` in list order and resets
that entry to `[]`. -/
def on_group_message (st : PluginState) (now : Int)
    (checkApi : String → Option FetchResult) (anchorApi : String → Option AnchorInfo)
    (fmtTime : Int → String) (event : GEvent) :
    Except String (List String × PluginState) :=
  if ¬ is_group_in_white_list st.white_list_groups event.group_id then
    Except.ok ([], st)
  else do
    let m := pyLower (pyStrip event.message_str)
    let cmd ← commandOut st now checkApi anchorApi fmtTime m
    let gkey := GVal.s event.group_id.str
    match dlookup st.pending_notifications gkey with
    | some msgs =>
      if msgs ≠ [] then
        Except.ok (cmd ++ msgs,
          { st with pending_notifications := dinsert gkey [] st.pending_notifications })
      else Except.ok (cmd, st)
    | none => Except.ok (cmd, st)

/-- Record constructor shorthand for `RoomStatus`, used in statements. -/
def mkStatus (c : Int) (t : Option Int) (name : String) : RoomStatus :=
  { last_status := c, live_start_time := t, anchor_name := name }

/-! ### Concrete inputs used by witnesses and counterexamples -/

/-- A two-room configuration: both rooms observed OFFLINE. -/
def stTwo : PluginState :=
  { monitor_list := [{ room_id := "1", anchor_name := none },
                     { room_id := "2", anchor_name := some "B" }],
    white_list_groups := [GVal.s "5"],
    room_status := [("1", mkStatus 0 none "A"), ("2", mkStatus 0 none "B")],
    pending_notifications := [] }

/-- A fetch result for room 1 whose `data` lacks `live_status`
(processing it raises `KeyError`). -/
def badResult : FetchResult :=
  { room_id := "1", data := [("live_time", 3)], check_time := 0 }

/-- A well-formed fetch result for room 2 reporting LIVE. -/
def goodResult : FetchResult :=
  { room_id := "2", data := [("live_status", 1), ("live_time", 9)], check_time := 0 }

/-- A one-room configuration with no room yet observed. -/
def stFresh : PluginState :=
  { monitor_list := [{ room_id := "7", anchor_name := some "Foo" }],
    white_list_groups := [GVal.s "5"],
    room_status := [],
    pending_notifications := [] }

/-- A one-room configuration whose room is recorded LIVE since time 100. -/
def stLive : PluginState :=
  { monitor_list := [{ room_id := "7", anchor_name := some "Foo" }],
    white_list_groups := [GVal.s "5"],
    room_status := [("7", mkStatus 1 (some 100) "Foo")],
    pending_notifications := [] }

/-- A fetch result for room 7 reporting OFFLINE. -/
def frOff : FetchResult :=
  { room_id := "7", data := [("live_status", 0), ("live_time", 4)], check_time := 0 }

/-- A fetch result for room 7 reporting LIVE. -/
def frLive : FetchResult :=
  { room_id := "7", data := [("live_status", 1), ("live_time", 4)], check_time := 0 }

/-- A configuration whose allow-list entry is the integer `5` (not the
string `"5"`). -/
def stIntWhite : PluginState :=
  { monitor_list := [{ room_id := "2", anchor_name := some "B" }],
    white_list_groups := [GVal.i 5],
    room_status := [("2", mkStatus 0 none "B")],
    pending_notifications := [] }

/-- A state with two messages already queued for group `"5"`. -/
def stPend : PluginState :=
  { monitor_list := [{ room_id := "7", anchor_name := some "Foo" }],
    white_list_groups := [GVal.s "5"],
    room_status := [],
    pending_notifications := [(GVal.s "5", ["m1", "m2"])] }

/-- `stPend` after its outbox for group `"5"` has been drained. -/
def stPendAfter : PluginState :=
  { monitor_list := [{ room_id := "7", anchor_name := some "Foo" }],
    white_list_groups := [GVal.s "5"],
    room_status := [],
    pending_notifications := [(GVal.s "5", [])] }

/-! ### Basic lemmas about the dictionary model -/

theorem dlookup_dinsert_self {α β : Type} [DecidableEq α] (a : α) (b : β)
    (l : List (α × β)) : dlookup (dinsert a b l) a = some b := by
  induction l with
  | nil => simp [dinsert, dlookup]
  | cons hd tl ih =>
    obtain ⟨k, v⟩ := hd
    by_cases h : k = a <;> simp [dinsert, dlookup, h, ih]

theorem dlookup_dinsert_ne {α β : Type} [DecidableEq α] {a a' : α} (b : β)
    (l : List (α × β)) (h : a' ≠ a) :
    dlookup (dinsert a b l) a' = dlookup l a' := by
  induction l with
  | nil => simp [dinsert, dlookup, Ne.symm h]
  | cons hd tl ih =>
    obtain ⟨k, v⟩ := hd
    by_cases hk : k = a
    · subst hk
      simp [dinsert, dlookup, h, Ne.symm h]
    · by_cases hk' : k = a' <;> simp [dinsert, dlookup, hk, hk', h, ih]

theorem addNotifications_nil (msg : String) (pending : List (GVal × List String)) :
    addNotifications [] msg pending = pending := rfl

theorem addNotifications_cons (g : GVal) (rest : List GVal) (msg : String)
    (pending : List (GVal × List String)) :
    addNotifications (g :: rest) msg pending
      = addNotifications rest msg
          (dinsert g ((dlookup pending g).getD [] ++ [msg]) pending) := rfl

theorem addNotifications_not_mem (groups : List GVal) (msg : String)
    (pending : List (GVal × List String)) (g : GVal) (hg : g ∉ groups) :
    dlookup (addNotifications groups msg pending) g = dlookup pending g := by
  induction groups generalizing pending with
  | nil => rfl
  | cons a rest ih =>
    rw [addNotifications_cons]
    rw [ih _ (fun hmem => hg (List.mem_cons_of_mem a hmem))]
    exact dlookup_dinsert_ne _ _ (fun h => hg (h ▸ List.mem_cons_self a rest))

theorem addNotifications_mem (groups : List GVal) (msg : String)
    (pending : List (GVal × List String)) (g : GVal) (hnd : groups.Nodup)
    (hg : g ∈ groups) :
    dlookup (addNotifications groups msg pending) g
      = some ((dlookup pending g).getD [] ++ [msg]) := by
  induction groups generalizing pending with
  | nil => cases hg
  | cons a rest ih =>
    rw [addNotifications_cons]
    rcases List.mem_cons.mp hg with h | h
    · subst h
      rw [addNotifications_not_mem _ _ _ _ (List.nodup_cons.mp hnd).1]
      exact dlookup_dinsert_self _ _ _
    · have hne : g ≠ a := fun he => (List.nodup_cons.mp hnd).1 (he ▸ h)
      rw [ih _ (List.nodup_cons.mp hnd).2 h, dlookup_dinsert_ne _ _ hne]

/-! ### Step lemmas for `processResult` -/

theorem processResult_none (now : Int) (anchorApi : String → Option AnchorInfo)
    (st : PluginState) : processResult now anchorApi st none = Except.ok st := rfl

theorem processResult_no_status (now : Int) (anchorApi : String → Option AnchorInfo)
    (st : PluginState) (r : FetchResult)
    (hs : dlookup r.data "live_status" = none) :
    processResult now anchorApi st (some r) = Except.error "live_status" := by
  simp [processResult, getKey, hs, Bind.bind, Except.bind]

theorem processResult_no_config (now : Int) (anchorApi : String → Option AnchorInfo)
    (st : PluginState) (r : FetchResult) (c : Int)
    (hs : dlookup r.data "live_status" = some c)
    (hcfg : st.monitor_list.find? (fun cfg => cfg.room_id == r.room_id) = none) :
    processResult now anchorApi st (some r) = Except.ok st := by
  simp [processResult, getKey, hs, hcfg, Bind.bind, Except.bind]

theorem processResult_baseline (now : Int) (anchorApi : String → Option AnchorInfo)
    (st : PluginState) (r : FetchResult) (c : Int) (cfg : RoomConfig)
    (hs : dlookup r.data "live_status" = some c)
    (hcfg : st.monitor_list.find? (fun x => x.room_id == r.room_id) = some cfg)
    (hnew : dlookup st.room_status r.room_id = none) :
    processResult now anchorApi st (some r)
      = Except.ok { st with
          room_status := dinsert r.room_id
            (mkStatus c none (cfg.anchor_name.getD s!"主播{r.room_id}"))
            st.room_status } := by
  simp [processResult, getKey, hs, hcfg, hnew, mkStatus, Bind.bind, Except.bind]

theorem processResult_no_change (now : Int) (anchorApi : String → Option AnchorInfo)
    (st : PluginState) (r : FetchResult) (c : Int) (cfg : RoomConfig) (rs : RoomStatus)
    (hs : dlookup r.data "live_status" = some c)
    (hcfg : st.monitor_list.find? (fun x => x.room_id == r.room_id) = some cfg)
    (hold : dlookup st.room_status r.room_id = some rs)
    (heq : c = rs.last_status) :
    processResult now anchorApi st (some r) = Except.ok st := by
  simp [processResult, getKey, hs, hcfg, hold, heq, Bind.bind, Except.bind]

theorem processResult_offline (now : Int) (anchorApi : String → Option AnchorInfo)
    (st : PluginState) (r : FetchResult) (c : Int) (cfg : RoomConfig) (rs : RoomStatus)
    (hs : dlookup r.data "live_status" = some c)
    (hcfg : st.monitor_list.find? (fun x => x.room_id == r.room_id) = some cfg)
    (hold : dlookup st.room_status r.room_id = some rs)
    (hne : c ≠ rs.last_status) (hc1 : c ≠ 1) :
    processResult now anchorApi st (some r)
      = Except.ok { st with
          room_status := dinsert r.room_id { rs with last_status := c } st.room_status,
          pending_notifications :=
            addNotifications st.white_list_groups
              (offlineMessage rs.anchor_name rs.live_start_time now)
              st.pending_notifications } := by
  simp [processResult, getKey, hs, hcfg, hold, hne, hc1, Bind.bind, Except.bind]

theorem processResult_live (now : Int) (anchorApi : String → Option AnchorInfo)
    (st : PluginState) (r : FetchResult) (cfg : RoomConfig) (rs : RoomStatus) (lt : Int)
    (hs : dlookup r.data "live_status" = some 1)
    (hlt : dlookup r.data "live_time" = some lt)
    (hcfg : st.monitor_list.find? (fun x => x.room_id == r.room_id) = some cfg)
    (hold : dlookup st.room_status r.room_id = some rs)
    (hne : rs.last_status ≠ 1) :
    processResult now anchorApi st (some r)
      = Except.ok { st with
          monitor_list :=
            updateFirstName r.room_id
              (get_anchor_info r.room_id (anchorApi r.room_id)).name st.monitor_list,
          room_status := dinsert r.room_id
            (mkStatus 1 (some lt) (get_anchor_info r.room_id (anchorApi r.room_id)).name)
            st.room_status,
          pending_notifications :=
            addNotifications st.white_list_groups
              (liveMessage (get_anchor_info r.room_id (anchorApi r.room_id)).name
                r.room_id (get_anchor_info r.room_id (anchorApi r.room_id)).title)
              st.pending_notifications } := by
  simp [processResult, getKey, hs, hlt, hcfg, hold, Ne.symm hne, mkStatus, Bind.bind, Except.bind]

theorem processResult_live_no_time (now : Int) (anchorApi : String → Option AnchorInfo)
    (st : PluginState) (r : FetchResult) (cfg : RoomConfig) (rs : RoomStatus)
    (hs : dlookup r.data "live_status" = some 1)
    (hlt : dlookup r.data "live_time" = none)
    (hcfg : st.monitor_list.find? (fun x => x.room_id == r.room_id) = some cfg)
    (hold : dlookup st.room_status r.room_id = some rs)
    (hne : rs.last_status ≠ 1) :
    processResult now anchorApi st (some r) = Except.error "live_time" := by
  simp [processResult, getKey, hs, hlt, hcfg, hold, Ne.symm hne, Bind.bind, Except.bind]

theorem updateFirstName_map (rid nm : String) (l : List RoomConfig) :
    (updateFirstName rid nm l).map RoomConfig.room_id = l.map RoomConfig.room_id := by
  induction l with
  | nil => rfl
  | cons c rest ih =>
    by_cases h : c.room_id == rid <;> simp [updateFirstName, h, ih]

theorem processResult_ok_frame (now : Int) (api : String → Option AnchorInfo)
    (st : PluginState) (r : Option FetchResult) (st' : PluginState)
    (h : processResult now api st r = Except.ok st') :
    st'.white_list_groups = st.white_list_groups
    ∧ st'.monitor_list.map RoomConfig.room_id = st.monitor_list.map RoomConfig.room_id
    ∧ ∀ k, k ∉ st.white_list_groups →
        dlookup st'.pending_notifications k = dlookup st.pending_notifications k := by
  cases r with
  | none =>
    rw [processResult_none] at h
    injection h with h
    subst h
    exact ⟨rfl, rfl, fun k _ => rfl⟩
  | some fr =>
    simp only [processResult, Bind.bind, Except.bind] at h
    repeat' split at h
    all_goals try exact Except.noConfusion h
    all_goals injection h with h
    all_goals subst h
    all_goals exact ⟨rfl, by simp [updateFirstName_map],
      fun k hk => by simp [addNotifications_not_mem _ _ _ _ hk]⟩

theorem processResult_ok_status_other (now : Int) (api : String → Option AnchorInfo)
    (st : PluginState) (fr : FetchResult) (st' : PluginState) (room : String)
    (h : processResult now api st (some fr) = Except.ok st')
    (hne : fr.room_id ≠ room) :
    dlookup st'.room_status room = dlookup st.room_status room := by
  simp only [processResult, Bind.bind, Except.bind] at h
  repeat' split at h
  all_goals try exact Except.noConfusion h
  all_goals injection h with h
  all_goals subst h
  all_goals simp [dlookup_dinsert_ne _ _ (Ne.symm hne)]

theorem find_config_isSome (l : List RoomConfig) (x : String) :
    (l.find? (fun c => c.room_id == x)).isSome
      = (l.map RoomConfig.room_id).contains x := by
  induction l with
  | nil => rfl
  | cons c rest ih =>
    by_cases h : c.room_id = x
    · simp [List.find?, h]
    · have h1 : (c.room_id == x) = false := beq_eq_false_iff_ne.mpr h
      have h2 : (x == c.room_id) = false := beq_eq_false_iff_ne.mpr (Ne.symm h)
      simp [List.find?, h1, h2, ih, Ne.symm h]

theorem processResult_ok_status_self (now : Int) (api : String → Option AnchorInfo)
    (st : PluginState) (fr : FetchResult) (st' : PluginState) (c : Int)
    (h : processResult now api st (some fr) = Except.ok st')
    (hs : dlookup fr.data "live_status" = some c)
    (hcfg : (st.monitor_list.find? (fun x => x.room_id == fr.room_id)).isSome) :
    ∃ rs', dlookup st'.room_status fr.room_id = some rs' ∧ rs'.last_status = c := by
  obtain ⟨cfg, hfind⟩ := Option.isSome_iff_exists.mp hcfg
  simp only [processResult, getKey, hs, hfind, Bind.bind, Except.bind] at h
  repeat' split at h
  all_goals try exact Except.noConfusion h
  all_goals injection h with h
  all_goals subst h
  all_goals try exact ⟨_, dlookup_dinsert_self _ _ _, rfl⟩
  all_goals rename_i hchg
  all_goals rename_i rs hold
  all_goals exact ⟨rs, hold, (not_ne_iff.mp hchg).symm⟩

/-- A successful fetch result that the cycle body can process without
raising: the `data` dict has the fields the loop reads and a configuration
entry for the room exists. -/
def resultOk (ml : List RoomConfig) : Option FetchResult → Prop
  | none => True
  | some fr => (dlookup fr.data "live_status").isSome = true
      ∧ (dlookup fr.data "live_time").isSome = true
      ∧ ((ml.map RoomConfig.room_id).contains fr.room_id) = true

/-- The `live_status` value of the last successful fetch result for `room`
in a cycle's result list; `none` when no successful result for `room` is
present. -/
def lastFetched : List (Option FetchResult) → String → Option Int
  | [], _ => none
  | r :: rest, room =>
    match lastFetched rest room with
    | some s => some s
    | none =>
      match r with
      | some fr => if fr.room_id = room then dlookup fr.data "live_status" else none
      | none => none

theorem lastFetched_nil (room : String) : lastFetched [] room = none := rfl

theorem lastFetched_cons (r : Option FetchResult) (rest : List (Option FetchResult))
    (room : String) :
    lastFetched (r :: rest) room
      = (match lastFetched rest room with
        | some s => some s
        | none =>
          match r with
          | some fr => if fr.room_id = room then dlookup fr.data "live_status" else none
          | none => none) := rfl

theorem processResult_ok_of_resultOk (now : Int) (api : String → Option AnchorInfo)
    (st : PluginState) (r : Option FetchResult) (hr : resultOk st.monitor_list r) :
    ∃ st', processResult now api st r = Except.ok st' := by
  cases r with
  | none => exact ⟨st, rfl⟩
  | some fr =>
    obtain ⟨hs', hlt', hcfg'⟩ := hr
    obtain ⟨c, hs⟩ := Option.isSome_iff_exists.mp hs'
    obtain ⟨lt, hlt⟩ := Option.isSome_iff_exists.mp hlt'
    have hfindSome : (st.monitor_list.find? (fun x => x.room_id == fr.room_id)).isSome := by
      rw [find_config_isSome]
      exact hcfg'
    obtain ⟨cfg, hfind⟩ := Option.isSome_iff_exists.mp hfindSome
    cases hold : dlookup st.room_status fr.room_id with
    | none => exact ⟨_, processResult_baseline now api st fr c cfg hs hfind hold⟩
    | some rs =>
      by_cases hchg : c = rs.last_status
      · exact ⟨st, processResult_no_change now api st fr c cfg rs hs hfind hold hchg⟩
      · by_cases hc1 : c = 1
        · subst hc1
          exact ⟨_, processResult_live now api st fr cfg rs lt hs hlt hfind hold
            (fun he => hchg he.symm)⟩
        · exact ⟨_, processResult_offline now api st fr c cfg rs hs hfind hold hchg hc1⟩

theorem monitorCycle_nil (now : Int) (api : String → Option AnchorInfo)
    (st : PluginState) : monitorCycle now api st [] = st := rfl

theorem monitorCycle_cons_ok (now : Int) (api : String → Option AnchorInfo)
    (st st' : PluginState) (r : Option FetchResult) (rest : List (Option FetchResult))
    (h : processResult now api st r = Except.ok st') :
    monitorCycle now api st (r :: rest) = monitorCycle now api st' rest := by
  simp [monitorCycle, h]

theorem monitorCycle_cons_error (now : Int) (api : String → Option AnchorInfo)
    (st : PluginState) (r : Option FetchResult) (rest : List (Option FetchResult))
    (e : String) (h : processResult now api st r = Except.error e) :
    monitorCycle now api st (r :: rest) = st := by
  simp [monitorCycle, h]

/-- C1: for every room_id, after a monitor cycle whose successful results
are well formed, the stored `last_status` equals the `live_status` of the
most recent successful fetch for that room; when no successful fetch for
the room occurred, the room's `room_status` entry is left unchanged, and a
failed fetch (`None` result) is skipped without changing any state, so no
transition message can arise from it. -/
theorem monitor_status_reflects_last_fetch (now : Int)
    (api : String → Option AnchorInfo) (st : PluginState)
    (results : List (Option FetchResult))
    (hwf : ∀ r ∈ results, resultOk st.monitor_list r) (room : String) :
    (∀ s, lastFetched results room = some s →
       ∃ rs, dlookup (monitorCycle now api st results).room_status room = some rs
         ∧ rs.last_status = s)
    ∧ (lastFetched results room = none →
       dlookup (monitorCycle now api st results).room_status room
         = dlookup st.room_status room)
    ∧ processResult now api st none = Except.ok st := by
  induction results generalizing st with
  | nil =>
    refine ⟨?_, fun _ => rfl, rfl⟩
    intro s hs
    rw [lastFetched_nil] at hs
    cases hs
  | cons r rest ih =>
    have hr := hwf r (List.mem_cons_self _ _)
    obtain ⟨st', hok⟩ := processResult_ok_of_resultOk now api st r hr
    have hmap := (processResult_ok_frame now api st r st' hok).2.1
    have hwf' : ∀ x ∈ rest, resultOk st'.monitor_list x := by
      intro x hx
      have hx' := hwf x (List.mem_cons_of_mem _ hx)
      cases x with
      | none => trivial
      | some fr =>
        obtain ⟨a, b, c'⟩ := hx'
        exact ⟨a, b, by rw [hmap]; exact c'⟩
    have IH := ih st' hwf'
    rw [monitorCycle_cons_ok now api st st' r rest hok]
    refine ⟨?_, ?_, rfl⟩
    · intro s hs
      rw [lastFetched_cons] at hs
      cases hrest : lastFetched rest room with
      | some s' =>
        rw [hrest] at hs
        cases hs
        exact IH.1 s hrest
      | none =>
        rw [hrest] at hs
        cases r with
        | none => cases hs
        | some fr =>
          by_cases hid : fr.room_id = room
          · subst hid
            simp at hs
            have := processResult_ok_status_self now api st fr st' s hok hs
              (by rw [find_config_isSome]; exact hr.2.2)
            obtain ⟨rs', h1, h2⟩ := this
            rw [IH.2.1 hrest, h1]
            exact ⟨rs', rfl, h2⟩
          · simp [hid] at hs
    · intro hs
      rw [lastFetched_cons] at hs
      cases hrest : lastFetched rest room with
      | some s' => rw [hrest] at hs; cases hs
      | none =>
        rw [hrest] at hs
        rw [IH.2.1 hrest]
        cases r with
        | none =>
          rw [processResult_none] at hok
          injection hok with hok
          subst hok
          rfl
        | some fr =>
          by_cases hid : fr.room_id = room
          · subst hid
            simp at hs
            exact absurd hr.1 (by simp [hs])
          · exact processResult_ok_status_other now api st fr st' room hok hid

/-- C2: the first successful poll of a room only records a baseline
`RoomStatus` (no notification is enqueued for any destination, even when
the room is already live), and the second successful poll enqueues exactly
one notification to each allow-listed destination if and only if its
status differs from the first poll's status. -/
theorem first_poll_baseline_second_poll_iff (now : Int)
    (api : String → Option AnchorInfo) (st0 : PluginState)
    (r1 r2 : FetchResult) (s1 s2 : Int) (cfg : RoomConfig)
    (hnd : st0.white_list_groups.Nodup)
    (h0 : dlookup st0.room_status r1.room_id = none)
    (hid : r2.room_id = r1.room_id)
    (hcfg : st0.monitor_list.find? (fun x => x.room_id == r1.room_id) = some cfg)
    (hs1 : dlookup r1.data "live_status" = some s1)
    (hs2 : dlookup r2.data "live_status" = some s2)
    (hlt2 : (dlookup r2.data "live_time").isSome = true) :
    ∃ st1 st2,
      processResult now api st0 (some r1) = Except.ok st1
      ∧ st1.pending_notifications = st0.pending_notifications
      ∧ dlookup st1.room_status r1.room_id
          = some (mkStatus s1 none (cfg.anchor_name.getD s!"主播{r1.room_id}"))
      ∧ processResult now api st1 (some r2) = Except.ok st2
      ∧ ∀ g ∈ st0.white_list_groups,
          ((dlookup st2.pending_notifications g).getD []).length
            = ((dlookup st0.pending_notifications g).getD []).length
              + (if s2 = s1 then 0 else 1) := by
  have hstep1 := processResult_baseline now api st0 r1 s1 cfg hs1 hcfg h0
  set st1 : PluginState :=
    { st0 with
      room_status := dinsert r1.room_id
        (mkStatus s1 none (cfg.anchor_name.getD s!"主播{r1.room_id}"))
        st0.room_status } with hst1
  have hlook1 : dlookup st1.room_status r1.room_id
      = some (mkStatus s1 none (cfg.anchor_name.getD s!"主播{r1.room_id}")) := by
    simp [hst1, dlookup_dinsert_self]
  have hcfg1 : st1.monitor_list.find? (fun x => x.room_id == r2.room_id) = some cfg := by
    rw [hid]
    exact hcfg
  have hlook1' : dlookup st1.room_status r2.room_id
      = some (mkStatus s1 none (cfg.anchor_name.getD s!"主播{r1.room_id}")) := by
    rw [hid]
    exact hlook1
  by_cases heq : s2 = s1
  · have hstep2 := processResult_no_change now api st1 r2 s2 cfg
      (mkStatus s1 none (cfg.anchor_name.getD s!"主播{r1.room_id}"))
      hs2 hcfg1 hlook1' (by simpa [mkStatus] using heq)
    exact ⟨st1, st1, hstep1, rfl, hlook1, hstep2, fun g _ => by simp [heq]⟩
  · by_cases h1 : s2 = 1
    · obtain ⟨lt, hlt⟩ := Option.isSome_iff_exists.mp hlt2
      subst h1
      have hstep2 := processResult_live now api st1 r2 cfg
        (mkStatus s1 none (cfg.anchor_name.getD s!"主播{r1.room_id}")) lt
        hs2 hlt hcfg1 hlook1' (by simpa [mkStatus] using fun h => heq h.symm)
      refine ⟨st1, _, hstep1, rfl, hlook1, hstep2, fun g hg => ?_⟩
      have : st1.pending_notifications = st0.pending_notifications := rfl
      have hw : st1.white_list_groups = st0.white_list_groups := rfl
      simp only [hw, this]
      rw [addNotifications_mem _ _ _ _ hnd hg]
      simp [heq]
    · have hstep2 := processResult_offline now api st1 r2 s2 cfg
        (mkStatus s1 none (cfg.anchor_name.getD s!"主播{r1.room_id}"))
        hs2 hcfg1 hlook1' (by simpa [mkStatus] using heq) h1
      refine ⟨st1, _, hstep1, rfl, hlook1, hstep2, fun g hg => ?_⟩
      have : st1.pending_notifications = st0.pending_notifications := rfl
      have hw : st1.white_list_groups = st0.white_list_groups := rfl
      simp only [hw, this]
      rw [addNotifications_mem _ _ _ _ hnd hg]
      simp [heq]

/-- C3: for a room whose recorded status is LIVE, the poll sequence
LIVE, LIVE, OFFLINE enqueues in total exactly one message — the OFFLINE
one — to each allow-listed destination (polls equal to the recorded
`last_status` enqueue nothing, and `last_status` is written back on the
transition), while non-allow-listed outbox entries stay unchanged. -/
theorem live_live_offline_single_message (now : Int) (api : String → Option AnchorInfo)
    (st0 : PluginState) (r1 r2 r3 : FetchResult) (rs0 : RoomStatus) (cfg : RoomConfig)
    (hnd : st0.white_list_groups.Nodup)
    (hid2 : r2.room_id = r1.room_id) (hid3 : r3.room_id = r1.room_id)
    (hrs0 : dlookup st0.room_status r1.room_id = some rs0)
    (hlast : rs0.last_status = 1)
    (hcfg : st0.monitor_list.find? (fun x => x.room_id == r1.room_id) = some cfg)
    (hs1 : dlookup r1.data "live_status" = some 1)
    (hs2 : dlookup r2.data "live_status" = some 1)
    (hs3 : dlookup r3.data "live_status" = some 0) :
    dlookup (monitorCycle now api st0 [some r1, some r2, some r3]).room_status r1.room_id
        = some { rs0 with last_status := 0 }
    ∧ (∀ g ∈ st0.white_list_groups,
        dlookup (monitorCycle now api st0 [some r1, some r2, some r3]).pending_notifications g
          = some ((dlookup st0.pending_notifications g).getD []
              ++ [offlineMessage rs0.anchor_name rs0.live_start_time now]))
    ∧ ∀ g, g ∉ st0.white_list_groups →
        dlookup (monitorCycle now api st0 [some r1, some r2, some r3]).pending_notifications g
          = dlookup st0.pending_notifications g := by
  have hstep1 := processResult_no_change now api st0 r1 1 cfg rs0 hs1 hcfg hrs0 hlast.symm
  have hstep2 := processResult_no_change now api st0 r2 1 cfg rs0 hs2
    (by rw [hid2]; exact hcfg) (by rw [hid2]; exact hrs0) hlast.symm
  have hstep3 := processResult_offline now api st0 r3 0 cfg rs0 hs3
    (by rw [hid3]; exact hcfg) (by rw [hid3]; exact hrs0)
    (by rw [hlast]; decide) (by decide)
  have hcycle : monitorCycle now api st0 [some r1, some r2, some r3]
      = { st0 with
          room_status := dinsert r3.room_id { rs0 with last_status := 0 } st0.room_status,
          pending_notifications :=
            addNotifications st0.white_list_groups
              (offlineMessage rs0.anchor_name rs0.live_start_time now)
              st0.pending_notifications } := by
    rw [monitorCycle_cons_ok now api st0 st0 _ _ hstep1,
        monitorCycle_cons_ok now api st0 st0 _ _ hstep2,
        monitorCycle_cons_ok now api st0 _ _ _ hstep3]
    rfl
  rw [hcycle]
  refine ⟨?_, fun g hg => ?_, fun g hg => ?_⟩
  · simp only [hid3]
    exact dlookup_dinsert_self _ _ _
  · exact addNotifications_mem _ _ _ _ hnd hg
  · exact addNotifications_not_mem _ _ _ _ hg

/-- C4 counterexample: in a cycle whose first result raises during
transition processing (its `data` lacks `live_status`), the second room's
well-formed LIVE result is NOT processed — the cycle-wide `except` catches
the exception and skips the rest of the cycle.  Processed alone, the same
second result does enqueue a notification, so the missing notification is
caused by the first room's exception. -/
theorem exception_skips_other_rooms_counterexample :
    monitorCycle 0 (fun _ => none) stTwo [some badResult, some goodResult] = stTwo
    ∧ processResult 0 (fun _ => none) stTwo (some badResult) = Except.error "live_status"
    ∧ dlookup (monitorCycle 0 (fun _ => none) stTwo [some goodResult]).pending_notifications
        (GVal.s "5") = some ["主播2开播了！\n传送门：https://live.bilibili.com/2"]
    ∧ dlookup (monitorCycle 0 (fun _ => none) stTwo
        [some badResult, some goodResult]).pending_notifications (GVal.s "5") = none := by
  refine ⟨by decide, by decide, by decide, by decide⟩

/-- C4 (amended): an exception inside a single room's fetch surfaces as a
`None` result, which the cycle skips with no state change before
continuing with the other rooms; an exception during a room's transition
processing is caught by the per-cycle handler, so the loop survives and
the cycle yields the state built so far — but the remaining results of
that cycle are not processed. -/
theorem monitor_cycle_error_semantics (now : Int) (api : String → Option AnchorInfo)
    (st : PluginState) (r : Option FetchResult) (rest : List (Option FetchResult))
    (e : String) :
    monitorCycle now api st (none :: rest) = monitorCycle now api st rest
    ∧ (processResult now api st r = Except.error e →
        monitorCycle now api st (r :: rest) = st) := by
  constructor
  · exact monitorCycle_cons_ok now api st st none rest (processResult_none now api st)
  · intro h
    exact monitorCycle_cons_error now api st r rest e h

/-- Witness for `monitor_cycle_error_semantics` at concrete inputs. -/
theorem monitor_cycle_error_semantics_witness :
    monitorCycle 0 (fun _ => none) stTwo [none, some goodResult]
        = monitorCycle 0 (fun _ => none) stTwo [some goodResult]
    ∧ monitorCycle 0 (fun _ => none) stTwo [some badResult, some goodResult] = stTwo :=
  ⟨(monitor_cycle_error_semantics 0 (fun _ => none) stTwo none [some goodResult] "x").1,
   (monitor_cycle_error_semantics 0 (fun _ => none) stTwo (some badResult)
      [some goodResult] "live_status").2 (by decide)⟩

/-- Witness for `monitor_status_reflects_last_fetch` at concrete inputs. -/
theorem monitor_status_reflects_last_fetch_witness :
    ∃ rs, dlookup (monitorCycle 0 (fun _ => none) stTwo
        [some goodResult]).room_status "2" = some rs ∧ rs.last_status = 1 :=
  (monitor_status_reflects_last_fetch 0 (fun _ => none) stTwo [some goodResult]
    (by intro r hr
        simp only [List.mem_singleton] at hr
        subst hr
        exact ⟨by decide, by decide, by decide⟩) "2").1 1 (by decide)

/-- Witness for `first_poll_baseline_second_poll_iff` at concrete inputs. -/
theorem first_poll_baseline_second_poll_iff_witness :
    ∃ st1 st2,
      processResult 0 (fun _ => none) stFresh (some frOff) = Except.ok st1
      ∧ st1.pending_notifications = stFresh.pending_notifications
      ∧ dlookup st1.room_status "7" = some (mkStatus 0 none "Foo")
      ∧ processResult 0 (fun _ => none) st1 (some frLive) = Except.ok st2
      ∧ ∀ g ∈ stFresh.white_list_groups,
          ((dlookup st2.pending_notifications g).getD []).length
            = ((dlookup stFresh.pending_notifications g).getD []).length + 1 := by
  obtain ⟨st1, st2, h1, h2, h3, h4, h5⟩ :=
    first_poll_baseline_second_poll_iff 0 (fun _ => none) stFresh frOff frLive 0 1
      ⟨"7", some "Foo"⟩ (by decide) (by decide) (by decide) (by decide) (by decide)
      (by decide) (by decide)
  refine ⟨st1, st2, h1, h2, h3, h4, fun g hg => ?_⟩
  simpa using h5 g hg

/-- Witness for `live_live_offline_single_message` at concrete inputs:
the LIVE, LIVE, OFFLINE sequence enqueues exactly the one OFFLINE message,
with the 1h23m duration text. -/
theorem live_live_offline_single_message_witness :
    dlookup (monitorCycle 5080 (fun _ => none) stLive
        [some frLive, some frLive, some frOff]).room_status "7"
      = some (mkStatus 0 (some 100) "Foo")
    ∧ dlookup (monitorCycle 5080 (fun _ => none) stLive
        [some frLive, some frLive, some frOff]).pending_notifications (GVal.s "5")
      = some ["Foo的直播已结束，一共直播了1时23分"] := by
  obtain ⟨h1, h2, h3⟩ :=
    live_live_offline_single_message 5080 (fun _ => none) stLive frLive frLive frOff
      (mkStatus 1 (some 100) "Foo") ⟨"7", some "Foo"⟩ (by decide) (by decide) (by decide)
      (by decide) (by decide) (by decide) (by decide) (by decide) (by decide)
  refine ⟨h1, ?_⟩
  rw [h2 (GVal.s "5") (by decide)]
  decide

theorem durationText_shift (t d : Int) : durationText (t + d) t = durationText d 0 := by
  have h : t + d - t = d := by ring
  have h0 : d - (0 : Int) = d := by ring
  simp only [durationText, h, h0]

/-- C7: the LIVE→OFFLINE notification for a room with recorded start time
`t` is `"<name>的直播已结束，一共直播了<H>时<M>分"` with `H` the whole hours
and `M` the whole minutes of `now − t` (so 1h23m gives `"1时23分"` and any
duration under one minute gives `"0时0分"`); with no recorded start time it
is exactly `"<name>的直播已结束"`. -/
theorem offline_message_format (now : Int) (api : String → Option AnchorInfo)
    (st : PluginState) (r : FetchResult) (rs : RoomStatus) (cfg : RoomConfig) (g : GVal)
    (hnd : st.white_list_groups.Nodup) (hg : g ∈ st.white_list_groups)
    (hs : dlookup r.data "live_status" = some 0)
    (hcfg : st.monitor_list.find? (fun x => x.room_id == r.room_id) = some cfg)
    (hold : dlookup st.room_status r.room_id = some rs)
    (hlast : rs.last_status = 1) :
    ∃ st', processResult now api st (some r) = Except.ok st'
      ∧ dlookup st'.pending_notifications g
          = some ((dlookup st.pending_notifications g).getD []
              ++ [offlineMessage rs.anchor_name rs.live_start_time now])
      ∧ (∀ t, rs.live_start_time = some t →
          offlineMessage rs.anchor_name rs.live_start_time now
            = rs.anchor_name ++ "的直播已结束，一共直播了"
              ++ (toString (Int.fdiv (now - t) 3600) ++ "时"
                ++ toString (Int.fdiv (Int.fmod (now - t) 3600) 60) ++ "分"))
      ∧ (rs.live_start_time = none →
          offlineMessage rs.anchor_name rs.live_start_time now
            = rs.anchor_name ++ "的直播已结束")
      ∧ (∀ t, durationText (t + 4980) t = "1时23分")
      ∧ (∀ t d, 0 ≤ d → d < 60 → durationText (t + d) t = "0时0分") := by
  have hstep := processResult_offline now api st r 0 cfg rs hs hcfg hold
    (by rw [hlast]; decide) (by decide)
  refine ⟨_, hstep, ?_, ?_, ?_, ?_, ?_⟩
  · exact addNotifications_mem _ _ _ _ hnd hg
  · intro t ht
    rw [ht]
    rfl
  · intro ht
    rw [ht]
    rfl
  · intro t
    rw [durationText_shift]
    decide
  · intro t d h0 h1
    rw [durationText_shift]
    interval_cases d <;> decide

/-- Witness for `offline_message_format` at concrete inputs (1h23m). -/
theorem offline_message_format_witness :
    ∃ st', processResult 5080 (fun _ => none) stLive (some frOff) = Except.ok st'
      ∧ dlookup st'.pending_notifications (GVal.s "5")
          = some ["Foo的直播已结束，一共直播了1时23分"] := by
  obtain ⟨st', h1, h2, h3, h4, h5, h6⟩ :=
    offline_message_format 5080 (fun _ => none) stLive frOff (mkStatus 1 (some 100) "Foo")
      ⟨"7", some "Foo"⟩ (GVal.s "5") (by decide) (by decide) (by decide) (by decide)
      (by decide) (by decide)
  refine ⟨st', h1, ?_⟩
  rw [h2]
  decide

theorem liveMessage_with_title (a rid title : String) (h : title ≠ "未知标题") :
    liveMessage a rid title
      = a ++ "开播了！\n传送门：https://live.bilibili.com/" ++ rid
        ++ ("\n标题：" ++ title) := by
  unfold liveMessage
  rw [if_neg h]
  rw [show (s!"{a}开播了！\n传送门：https://live.bilibili.com/{rid}" : String)
      = a ++ "开播了！\n传送门：https://live.bilibili.com/" ++ rid from String.append_empty _]
  rw [show (s!"\n标题：{title}" : String) = "\n标题：" ++ title from String.append_empty _]

theorem liveMessage_fallback_title (a rid : String) :
    liveMessage a rid "未知标题"
      = a ++ "开播了！\n传送门：https://live.bilibili.com/" ++ rid := by
  unfold liveMessage
  rw [if_pos rfl]
  exact String.append_empty _

/-- C8: on an OFFLINE→LIVE transition the live-start time is recorded from
the payload's `live_time`, the anchor-info lookup is best-effort — when it
fails the transition still completes, the generic name `主播<room_id>`
("Anchor <room_id>") is used and the title line is omitted — and the
message is `"<name>开播了！"` plus the portal link, with a `"标题：<title>"`
line appended exactly when a real title (one differing from the fallback
`未知标题`) was obtained. -/
theorem live_transition_best_effort (now : Int) (api : String → Option AnchorInfo)
    (st : PluginState) (r : FetchResult) (rs : RoomStatus) (cfg : RoomConfig)
    (g : GVal) (lt : Int)
    (hnd : st.white_list_groups.Nodup) (hg : g ∈ st.white_list_groups)
    (hs : dlookup r.data "live_status" = some 1)
    (hlt : dlookup r.data "live_time" = some lt)
    (hcfg : st.monitor_list.find? (fun x => x.room_id == r.room_id) = some cfg)
    (hold : dlookup st.room_status r.room_id = some rs)
    (hlast : rs.last_status ≠ 1) :
    ∃ st', processResult now api st (some r) = Except.ok st'
      ∧ dlookup st'.room_status r.room_id
          = some (mkStatus 1 (some lt) (get_anchor_info r.room_id (api r.room_id)).name)
      ∧ dlookup st'.pending_notifications g
          = some ((dlookup st.pending_notifications g).getD []
              ++ [liveMessage (get_anchor_info r.room_id (api r.room_id)).name r.room_id
                    (get_anchor_info r.room_id (api r.room_id)).title])
      ∧ (api r.room_id = none →
          (get_anchor_info r.room_id (api r.room_id)).name = "主播" ++ r.room_id
          ∧ liveMessage (get_anchor_info r.room_id (api r.room_id)).name r.room_id
                (get_anchor_info r.room_id (api r.room_id)).title
              = ("主播" ++ r.room_id)
                ++ "开播了！\n传送门：https://live.bilibili.com/" ++ r.room_id)
      ∧ (∀ a, api r.room_id = some a → a.title ≠ "未知标题" →
          liveMessage a.name r.room_id a.title
            = a.name ++ "开播了！\n传送门：https://live.bilibili.com/" ++ r.room_id
              ++ ("\n标题：" ++ a.title))
      ∧ (∀ a, api r.room_id = some a → a.title = "未知标题" →
          liveMessage a.name r.room_id a.title
            = a.name ++ "开播了！\n传送门：https://live.bilibili.com/" ++ r.room_id) := by
  have hstep := processResult_live now api st r cfg rs lt hs hlt hcfg hold hlast
  refine ⟨_, hstep, ?_, ?_, ?_, ?_, ?_⟩
  · exact dlookup_dinsert_self _ _ _
  · exact addNotifications_mem _ _ _ _ hnd hg
  · intro hnone
    rw [hnone]
    exact ⟨String.append_empty _, by
      rw [show (get_anchor_info r.room_id none).title = "未知标题" from rfl]
      rw [show (get_anchor_info r.room_id none).name = "主播" ++ r.room_id from
        String.append_empty _]
      exact liveMessage_fallback_title _ _⟩
  · intro a _ hti
    exact liveMessage_with_title a.name r.room_id a.title hti
  · intro a _ hti
    rw [hti]
    exact liveMessage_fallback_title _ _

/-- Witness for `live_transition_best_effort` at concrete inputs with a
failing anchor-info lookup: the transition completes with the generic name
and no title line. -/
theorem live_transition_best_effort_witness :
    ∃ st', processResult 0 (fun _ => none) stTwo (some goodResult) = Except.ok st'
      ∧ dlookup st'.room_status goodResult.room_id = some (mkStatus 1 (some 9) "主播2")
      ∧ dlookup st'.pending_notifications (GVal.s "5")
          = some ["主播2开播了！\n传送门：https://live.bilibili.com/2"] := by
  obtain ⟨st', h1, h2, h3, h4, h5, h6⟩ :=
    live_transition_best_effort 0 (fun _ => none) stTwo goodResult (mkStatus 0 none "B")
      ⟨"2", some "B"⟩ (GVal.s "5") 9 (by decide) (by decide) (by decide) (by decide)
      (by decide) (by decide) (by decide)
  refine ⟨st', h1, ?_, ?_⟩
  · rw [h2]
    decide
  · rw [h3]
    decide

theorem monitorCycle_pending_not_white (now : Int) (api : String → Option AnchorInfo)
    (st : PluginState) (results : List (Option FetchResult)) (k : GVal)
    (hk : k ∉ st.white_list_groups) :
    dlookup (monitorCycle now api st results).pending_notifications k
      = dlookup st.pending_notifications k := by
  induction results generalizing st with
  | nil => rfl
  | cons r rest ih =>
    cases hpr : processResult now api st r with
    | ok st' =>
      rw [monitorCycle_cons_ok now api st st' r rest hpr]
      have hfr := processResult_ok_frame now api st r st' hpr
      rw [ih st' (by rw [hfr.1]; exact hk)]
      exact hfr.2.2 k hk
    | error e => rw [monitorCycle_cons_error now api st r rest e hpr]

/-- C6: an inbound event whose destination is not allow-listed (by the
string-normalized membership test) produces no output and no state change
at all, and a monitor cycle only ever touches outbox entries keyed by
allow-list members — so a non-allow-listed destination never receives a
command reply or a queued notification. -/
theorem non_allowlisted_receives_nothing (st : PluginState) (now : Int)
    (checkApi : String → Option FetchResult)
    (anchorApi monApi : String → Option AnchorInfo)
    (fmtTime : Int → String) (event : GEvent)
    (hw : is_group_in_white_list st.white_list_groups event.group_id = false) :
    on_group_message st now checkApi anchorApi fmtTime event = Except.ok ([], st)
    ∧ ∀ (results : List (Option FetchResult)) (k : GVal),
        k ∉ st.white_list_groups →
        dlookup (monitorCycle now monApi st results).pending_notifications k
          = dlookup st.pending_notifications k := by
  constructor
  · simp [on_group_message, hw]
  · intro results k hk
    exact monitorCycle_pending_not_white now monApi st results k hk

/-- Witness for `non_allowlisted_receives_nothing` at concrete inputs. -/
theorem non_allowlisted_receives_nothing_witness :
    on_group_message stTwo 0 (fun _ => none) (fun _ => none) (fun _ => "T")
        { group_id := GVal.s "9", message_str := "liveinfo" } = Except.ok ([], stTwo)
    ∧ dlookup (monitorCycle 0 (fun _ => none) stTwo
        [some goodResult]).pending_notifications (GVal.s "9")
      = dlookup stTwo.pending_notifications (GVal.s "9") :=
  ⟨(non_allowlisted_receives_nothing stTwo 0 (fun _ => none) (fun _ => none)
      (fun _ => none) (fun _ => "T")
      { group_id := GVal.s "9", message_str := "liveinfo" } (by decide)).1,
   (non_allowlisted_receives_nothing stTwo 0 (fun _ => none) (fun _ => none)
      (fun _ => none) (fun _ => "T")
      { group_id := GVal.s "9", message_str := "liveinfo" } (by decide)).2
     [some goodResult] (GVal.s "9") (by decide)⟩

/-- C5 counterexample: with the allow-list entry being the integer `5`,
the monitor enqueues the transition message under the raw key `5`, the
destination passes the (string-normalized) allow-list check, yet handling
an inbound event from it delivers nothing and leaves the outbox untouched:
the responder drains only the key `str(group_id) = "5"`, which is a
different dict key than the integer `5`. -/
theorem outbox_delivery_counterexample :
    is_group_in_white_list
        (monitorCycle 0 (fun _ => none) stIntWhite [some goodResult]).white_list_groups
        (GVal.i 5) = true
    ∧ dlookup (monitorCycle 0 (fun _ => none) stIntWhite
          [some goodResult]).pending_notifications (GVal.i 5)
        = some ["主播2开播了！\n传送门：https://live.bilibili.com/2"]
    ∧ on_group_message (monitorCycle 0 (fun _ => none) stIntWhite [some goodResult]) 0
          (fun _ => none) (fun _ => none) (fun _ => "T")
          { group_id := GVal.i 5, message_str := "hi" }
        = Except.ok ([], monitorCycle 0 (fun _ => none) stIntWhite [some goodResult]) := by
  exact ⟨by decide, by decide, by decide⟩

/-- C5 (amended): when the outbox holds a non-empty entry under the
string-normalized destination key (which is how entries are created
whenever the allow-list entries are strings), an inbound event from that
allow-listed destination emits the queued messages in FIFO order after any
command output, and resets that outbox entry to the empty list. -/
theorem outbox_fifo_delivery (st : PluginState) (now : Int)
    (checkApi : String → Option FetchResult) (anchorApi : String → Option AnchorInfo)
    (fmtTime : Int → String) (g : GVal) (m : String)
    (msgs outs : List String)
    (hw : is_group_in_white_list st.white_list_groups g = true)
    (hp : dlookup st.pending_notifications (GVal.s g.str) = some msgs)
    (hne : msgs ≠ [])
    (hcmd : commandOut st now checkApi anchorApi fmtTime (pyLower (pyStrip m))
        = Except.ok outs) :
    on_group_message st now checkApi anchorApi fmtTime { group_id := g, message_str := m }
      = Except.ok (outs ++ msgs,
          { st with
            pending_notifications := dinsert (GVal.s g.str) []
              st.pending_notifications }) := by
  simp [on_group_message, hw, hcmd, hp, hne, Bind.bind, Except.bind]

/-- Witness for `outbox_fifo_delivery` at concrete inputs. -/
theorem outbox_fifo_delivery_witness :
    on_group_message stPend 0 (fun _ => none) (fun _ => none) (fun _ => "T")
        { group_id := GVal.s "5", message_str := "x" }
      = Except.ok (["m1", "m2"],
          { stPend with
            pending_notifications := dinsert (GVal.s "5") []
              stPend.pending_notifications }) := by
  have h := outbox_fifo_delivery stPend 0 (fun _ => none) (fun _ => none) (fun _ => "T")
    (GVal.s "5") "x" ["m1", "m2"] [] (by decide) (by decide) (by decide) (by decide)
  simpa using h

/-- C9: from an allow-listed destination, `"liveinfo <value>"` produces the
single-room report when `<value>` is a non-negative integer literal and the
fixed usage-error reply otherwise; inside the single-room path, an
unconfigured room id yields `"未找到直播间 <id> 的配置"` and a failed
synchronous status fetch yields `"无法获取直播间 <id> 的信息"`. -/
theorem liveinfo_command_errors (st : PluginState) (now : Int)
    (checkApi : String → Option FetchResult) (anchorApi : String → Option AnchorInfo)
    (fmtTime : Int → String) (event : GEvent) (v : String)
    (hw : is_group_in_white_list st.white_list_groups event.group_id = true)
    (hpend : dlookup st.pending_notifications (GVal.s event.group_id.str) = none)
    (hstarts : pyStartsWith "liveinfo " (pyLower (pyStrip event.message_str)) = true)
    (hv : v = pyStrip (pyDrop 9 (pyLower (pyStrip event.message_str)))) :
    (isDigitStr v = false →
      on_group_message st now checkApi anchorApi fmtTime event
        = Except.ok (["请输入正确的直播间ID"], st))
    ∧ (∀ info, isDigitStr v = true →
        get_live_info_single st now checkApi anchorApi fmtTime v = Except.ok info →
        on_group_message st now checkApi anchorApi fmtTime event
          = Except.ok ([info], st))
    ∧ (st.monitor_list.find? (fun c => c.room_id == v) = none →
        get_live_info_single st now checkApi anchorApi fmtTime v
          = Except.ok s!"未找到直播间 {v} 的配置")
    ∧ (∀ cfg, st.monitor_list.find? (fun c => c.room_id == v) = some cfg →
        checkApi v = none →
        get_live_info_single st now checkApi anchorApi fmtTime v
          = Except.ok s!"无法获取直播间 {v} 的信息") := by
  have hne : pyLower (pyStrip event.message_str) ≠ "liveinfo" := by
    intro he
    rw [he] at hstarts
    exact absurd hstarts (by decide)
  refine ⟨?_, ?_, ?_, ?_⟩
  · intro hdig
    simp [on_group_message, commandOut, hw, hne, hstarts, ← hv, hdig, hpend,
      Bind.bind, Except.bind]
  · intro info hdig hinfo
    simp [on_group_message, commandOut, hw, hne, hstarts, ← hv, hdig, hinfo, hpend,
      Bind.bind, Except.bind]
  · intro hfind
    simp [get_live_info_single, hfind]
  · intro cfg hfind hchk
    simp [get_live_info_single, hfind, hchk]

/-- Witness for `liveinfo_command_errors` at concrete inputs: the
unconfigured room 999 and a non-numeric argument. -/
theorem liveinfo_command_errors_witness :
    on_group_message stTwo 0 (fun _ => none) (fun _ => none) (fun _ => "T")
        { group_id := GVal.s "5", message_str := "liveinfo 999" }
      = Except.ok (["未找到直播间 999 的配置"], stTwo)
    ∧ on_group_message stTwo 0 (fun _ => none) (fun _ => none) (fun _ => "T")
        { group_id := GVal.s "5", message_str := "liveinfo abc" }
      = Except.ok (["请输入正确的直播间ID"], stTwo) := by
  have h1 := liveinfo_command_errors stTwo 0 (fun _ => none) (fun _ => none)
    (fun _ => "T") { group_id := GVal.s "5", message_str := "liveinfo 999" } "999"
    (by decide) (by decide) (by decide) (by decide)
  have h2 := liveinfo_command_errors stTwo 0 (fun _ => none) (fun _ => none)
    (fun _ => "T") { group_id := GVal.s "5", message_str := "liveinfo abc" } "abc"
    (by decide) (by decide) (by decide) (by decide)
  exact ⟨h1.2.1 "未找到直播间 999 的配置" (by decide) (h1.2.2.1 (by decide)),
         h2.1 (by decide)⟩

/-- C10: handling an inbound event from destination `d` leaves the room
status map, the monitor configuration and the allow-list unchanged, and
touches at most the outbox entry keyed by `str(d)` — which, when it held a
non-empty queue and `d` is allow-listed, is reset to the empty list after
delivery; every other destination's queue is untouched. -/
theorem responder_frame (st : PluginState) (now : Int)
    (checkApi : String → Option FetchResult) (anchorApi : String → Option AnchorInfo)
    (fmtTime : Int → String) (event : GEvent) (outs : List String) (st' : PluginState)
    (h : on_group_message st now checkApi anchorApi fmtTime event
        = Except.ok (outs, st')) :
    st'.monitor_list = st.monitor_list
    ∧ st'.white_list_groups = st.white_list_groups
    ∧ st'.room_status = st.room_status
    ∧ (∀ k, k ≠ GVal.s event.group_id.str →
        dlookup st'.pending_notifications k = dlookup st.pending_notifications k)
    ∧ (∀ msgs, dlookup st.pending_notifications (GVal.s event.group_id.str) = some msgs →
        msgs ≠ [] →
        is_group_in_white_list st.white_list_groups event.group_id = true →
        dlookup st'.pending_notifications (GVal.s event.group_id.str) = some []) := by
  simp only [on_group_message, Bind.bind, Except.bind] at h
  split at h
  · rename_i hcond
    injection h with h
    injection h with houts hst
    subst hst
    exact ⟨rfl, rfl, rfl, fun k _ => rfl, fun msgs hm hne hwl => absurd hwl hcond⟩
  · split at h
    · exact Except.noConfusion h
    · split at h
      · rename_i msgs0 hp
        split at h
        · injection h with h
          injection h with houts hst
          subst hst
          exact ⟨rfl, rfl, rfl, fun k hk => dlookup_dinsert_ne _ _ hk,
            fun msgs hm hne hwl => dlookup_dinsert_self _ _ _⟩
        · rename_i hne0
          injection h with h
          injection h with houts hst
          subst hst
          refine ⟨rfl, rfl, rfl, fun k _ => rfl, fun msgs hm hne hwl => ?_⟩
          rw [hp] at hm
          injection hm with hm
          subst hm
          exact absurd hne hne0
      · rename_i hp
        injection h with h
        injection h with houts hst
        subst hst
        refine ⟨rfl, rfl, rfl, fun k _ => rfl, fun msgs hm hne hwl => ?_⟩
        rw [hp] at hm
        cases hm

/-- Witness for `responder_frame` at concrete inputs: draining group "5"
leaves the room-status map intact and resets only that outbox entry. -/
theorem responder_frame_witness :
    stPendAfter.room_status = stPend.room_status
    ∧ dlookup stPendAfter.pending_notifications (GVal.s "5") = some [] := by
  have h : on_group_message stPend 0 (fun _ => none) (fun _ => none) (fun _ => "T")
      { group_id := GVal.s "5", message_str := "x" }
      = Except.ok (["m1", "m2"], stPendAfter) := by decide
  have hf := responder_frame stPend 0 (fun _ => none) (fun _ => none) (fun _ => "T")
    { group_id := GVal.s "5", message_str := "x" } ["m1", "m2"] stPendAfter h
  exact ⟨hf.2.2.1, hf.2.2.2.2 ["m1", "m2"] (by decide) (by decide) (by decide)⟩
